import Mathlib

/-!
Shallow embedding of the soulgraph-rust data model, its serde JSON
encoding/decoding discipline, its builders, and its resource-client
classification logic.

Modelling conventions:
* Rust `f32` fields are modelled as `ℚ` (the operations involved —
  comparison against interval bounds and `clamp` — are exact on the
  rationals; NaN is outside the model).
* Rust `i64` timestamps are modelled as `ℤ`.
* `uuid::Uuid` is modelled as an opaque `String`.
* JSON documents are modelled by the inductive `Json`; serde's derived
  serializers are translated field by field, reproducing the
  `#[serde(skip_serializing_if = "Option::is_none")]` attributes exactly
  where they occur in the source (notably: `Fragment.id` and `Context.id`
  carry no such attribute and therefore serialize an absent id as an
  explicit JSON null).
* Functions that read the wall clock (`chrono::Utc::now()`) take the
  current instant as an explicit parameter.
* HTTP transport is modelled as a function from a path to an optional
  response `(status, body)`; `none` is a transport-level failure.
-/

namespace Soulgraph

/-- A JSON document. Numbers are rationals (serde_json values feeding f32/i64 fields). -/
inductive Json where
  | null : Json
  | bool : Bool → Json
  | num : ℚ → Json
  | str : String → Json
  | arr : List Json → Json
  | obj : List (String × Json) → Json

/-- First binding of a key in a JSON object field list (serde field lookup). -/
def jget : List (String × Json) → String → Option Json
  | [], _ => none
  | (k', v) :: rest, k => if k = k' then some v else jget rest k

/-- Field lookup on a JSON document; `none` when the document is not an object. -/
def Json.getField : Json → String → Option Json
  | .obj fs, k => jget fs k
  | _, _ => none

/-- Whether an encoded document carries the given key. -/
def Json.hasKey (j : Json) (k : String) : Bool :=
  (j.getField k).isSome

def Json.asStr : Json → Option String
  | .str s => some s
  | _ => none

def Json.asNum : Json → Option ℚ
  | .num q => some q
  | _ => none

/-- serde i64: accepts only integral JSON numbers. -/
def Json.asInt : Json → Option ℤ
  | .num q => if q.den = 1 then some q.num else none
  | _ => none

def Json.asArr : Json → Option (List Json)
  | .arr xs => some xs
  | _ => none

/-- Decode a required JSON string array. -/
def decodeStrList (j : Json) : Option (List String) :=
  j.asArr.bind (List.mapM Json.asStr)

/-- serde `Option<T>` field decode: a missing field and an explicit null both
give `none`; any other value must parse as `T`. -/
def optF (fs : List (String × Json)) (k : String) (p : Json → Option α) :
    Option (Option α) :=
  match jget fs k with
  | none => some none
  | some .null => some none
  | some j => (p j).map some

/-- serde `#[serde(skip_serializing_if = "Option::is_none")]` field encode:
emitted only when present. -/
def optField (k : String) : Option Json → List (String × Json)
  | none => []
  | some j => [(k, j)]

/-- Rust `f32::clamp(lo, hi)` on non-NaN values. -/
def clampQ (x lo hi : ℚ) : ℚ :=
  if x < lo then lo else if x > hi then hi else x

/-! ## The data model (canonical revisions: the id-bearing structs) -/

/-- `Entity` from src/entity.rs. -/
structure Entity where
  id : Option String
  form : String
  occupation : String
  gender : Option String
  age : Option String
  background : Option String
  expertise : Option (List String)
deriving DecidableEq, Repr

/-- `Trait` from src/personality/traits.rs (field `r#trait` kept as `trait`). -/
structure Trait where
  id : Option String
  trait : String
  strength : ℚ
  expression_rules : Option (List String)
deriving DecidableEq, Repr

/-- `ValueConflict` from src/personality/value.rs. -/
structure ValueConflict where
  id : Option String
  value : String
  resolution : String
deriving DecidableEq, Repr

/-- `Value` from src/personality/value.rs. -/
structure Value where
  id : Option String
  name : String
  importance : ℚ
  expression : String
  conflicts : Option (List ValueConflict)
deriving DecidableEq, Repr

/-- `Voice` from src/personality/voice.rs. -/
structure Voice where
  id : Option String
  style : String
  tone : String
  qualities : List String
  patterns : List String
deriving DecidableEq, Repr

/-- `EnforcementType` from src/personality/relationship.rs. -/
inductive EnforcementType where
  | strict | flexible | situational
deriving DecidableEq, Repr

/-- `Boundary` from src/personality/relationship.rs (field `r#type` kept as `type'`). -/
structure Boundary where
  id : Option String
  type' : String
  description : String
  enforcement : EnforcementType
deriving DecidableEq, Repr

/-- `Relationship` from src/personality/relationship.rs. -/
structure Relationship where
  id : Option String
  style : String
  boundaries : List Boundary
deriving DecidableEq, Repr

/-- Personality metadata: Rust `HashMap<String, String>` modelled as an
association list with replace-on-insert semantics. -/
def Metadata : Type := List (String × String)

instance : DecidableEq Metadata := by
  unfold Metadata; infer_instance

instance : Repr Metadata :=
  inferInstanceAs (Repr (List (String × String)))

/-- `HashMap::insert`: replace the binding if the key exists, else add it. -/
def mdInsert : Metadata → String → String → Metadata
  | [], k, v => [(k, v)]
  | (k', v') :: rest, k, v =>
      if k = k' then (k, v) :: rest else (k', v') :: mdInsert rest k v

/-- `HashMap::get`. -/
def mdGet : Metadata → String → Option String
  | [], _ => none
  | (k', v) :: rest, k => if k = k' then some v else mdGet rest k

/-- `HashMap::contains_key`. -/
def mdContains (m : Metadata) (k : String) : Bool :=
  (mdGet m k).isSome

/-- `Personality` from src/personality.rs. -/
structure Personality where
  id : Option String
  name : String
  traits : List Trait
  values : Option (List Value)
  voice : Option Voice
  relationship : Option Relationship
  metadata : Option Metadata
deriving DecidableEq, Repr

/-- `Soul` from src/soul.rs. -/
structure Soul where
  version : String
  id : Option String
  entity : Entity
  personality : Personality
deriving DecidableEq, Repr

/-- `FragmentType` from src/memories/fragment.rs. -/
inductive FragmentType where
  | observation | reflection
deriving DecidableEq, Repr

/-- `Context` from src/memories/fragment.rs. Its `id` field carries no
`skip_serializing_if` attribute in the source. -/
structure Context where
  id : Option String
  topic : String
  user_state : String
deriving DecidableEq, Repr

/-- `Fragment` from src/memories/fragment.rs. Its `id` field carries no
`skip_serializing_if` attribute in the source. -/
structure Fragment where
  id : Option String
  fragment_type : FragmentType
  content : String
  timestamp : ℤ
  importance : ℚ
  emotional_valence : ℚ
  context : Context
deriving DecidableEq, Repr

/-- `EmotionalSignature` from src/memories.rs. -/
structure EmotionalSignature where
  id : Option String
  valence : ℚ
  intensity : ℚ
deriving DecidableEq, Repr

/-- `MemoryMetadata` from src/memories.rs. -/
structure MemoryMetadata where
  id : Option String
  topic_tags : List String
  personality_influence : List String
  memory_type : String
deriving DecidableEq, Repr

/-- `Memory` from src/memories.rs. -/
structure Memory where
  id : Option String
  memory : String
  fragments : List Fragment
  connections : List String
  emotional_signature : EmotionalSignature
  importance_score : ℚ
  creation_date : ℤ
  last_accessed : ℤ
  metadata : MemoryMetadata
deriving DecidableEq, Repr

/-! ## Encoding (serde `Serialize`, field by field in declaration order) -/

/-- Encode an id as serde does for a *non-skipped* `Option<Uuid>` field:
an absent value becomes an explicit JSON null. -/
def encodeNullableId : Option String → Json
  | none => Json.null
  | some u => Json.str u

def encodeStrList (xs : List String) : Json :=
  Json.arr (xs.map Json.str)

def Entity.encode (e : Entity) : Json :=
  Json.obj (optField "id" (e.id.map Json.str) ++
    [("form", .str e.form), ("occupation", .str e.occupation)] ++
    optField "gender" (e.gender.map Json.str) ++
    optField "age" (e.age.map Json.str) ++
    optField "background" (e.background.map Json.str) ++
    optField "expertise" (e.expertise.map encodeStrList))

def Trait.encode (t : Trait) : Json :=
  Json.obj (optField "id" (t.id.map Json.str) ++
    [("trait", .str t.trait), ("strength", .num t.strength)] ++
    optField "expression_rules" (t.expression_rules.map encodeStrList))

def ValueConflict.encode (c : ValueConflict) : Json :=
  Json.obj (optField "id" (c.id.map Json.str) ++
    [("value", .str c.value), ("resolution", .str c.resolution)])

def Value.encode (v : Value) : Json :=
  Json.obj (optField "id" (v.id.map Json.str) ++
    [("name", .str v.name), ("importance", .num v.importance),
     ("expression", .str v.expression)] ++
    optField "conflicts" (v.conflicts.map fun cs => Json.arr (cs.map ValueConflict.encode)))

def Voice.encode (v : Voice) : Json :=
  Json.obj (optField "id" (v.id.map Json.str) ++
    [("style", .str v.style), ("tone", .str v.tone),
     ("qualities", encodeStrList v.qualities), ("patterns", encodeStrList v.patterns)])

def EnforcementType.encode : EnforcementType → Json
  | .strict => .str "strict"
  | .flexible => .str "flexible"
  | .situational => .str "situational"

def Boundary.encode (b : Boundary) : Json :=
  Json.obj (optField "id" (b.id.map Json.str) ++
    [("type", .str b.type'), ("description", .str b.description),
     ("enforcement", b.enforcement.encode)])

def Relationship.encode (r : Relationship) : Json :=
  Json.obj (optField "id" (r.id.map Json.str) ++
    [("style", .str r.style), ("boundaries", Json.arr (r.boundaries.map Boundary.encode))])

def encodeMetadata (m : Metadata) : Json :=
  Json.obj (m.map fun kv => (kv.1, Json.str kv.2))

def Personality.encode (p : Personality) : Json :=
  Json.obj (optField "id" (p.id.map Json.str) ++
    [("name", .str p.name), ("traits", Json.arr (p.traits.map Trait.encode))] ++
    optField "values" (p.values.map fun vs => Json.arr (vs.map Value.encode)) ++
    optField "voice" (p.voice.map Voice.encode) ++
    optField "relationship" (p.relationship.map Relationship.encode) ++
    optField "metadata" (p.metadata.map encodeMetadata))

def Soul.encode (s : Soul) : Json :=
  Json.obj ([("version", .str s.version)] ++
    optField "id" (s.id.map Json.str) ++
    [("entity", s.entity.encode), ("personality", s.personality.encode)])

def FragmentType.encode : FragmentType → Json
  | .observation => .str "observation"
  | .reflection => .str "reflection"

/-- `Context` serializes its `id` unconditionally (no skip attribute in the source). -/
def Context.encode (c : Context) : Json :=
  Json.obj [("id", encodeNullableId c.id),
    ("topic", .str c.topic), ("user_state", .str c.user_state)]

/-- `Fragment` serializes its `id` unconditionally (no skip attribute in the source). -/
def Fragment.encode (f : Fragment) : Json :=
  Json.obj [("id", encodeNullableId f.id),
    ("type", f.fragment_type.encode), ("content", .str f.content),
    ("timestamp", .num (f.timestamp : ℚ)), ("importance", .num f.importance),
    ("emotional_valence", .num f.emotional_valence), ("context", f.context.encode)]

def EmotionalSignature.encode (s : EmotionalSignature) : Json :=
  Json.obj (optField "id" (s.id.map Json.str) ++
    [("valence", .num s.valence), ("intensity", .num s.intensity)])

def MemoryMetadata.encode (m : MemoryMetadata) : Json :=
  Json.obj (optField "id" (m.id.map Json.str) ++
    [("topic_tags", encodeStrList m.topic_tags),
     ("personality_influence", encodeStrList m.personality_influence),
     ("memory_type", .str m.memory_type)])

def Memory.encode (m : Memory) : Json :=
  Json.obj (optField "id" (m.id.map Json.str) ++
    [("memory", .str m.memory),
     ("fragments", Json.arr (m.fragments.map Fragment.encode)),
     ("connections", encodeStrList m.connections),
     ("emotional_signature", m.emotional_signature.encode),
     ("importance_score", .num m.importance_score),
     ("creation_date", .num (m.creation_date : ℚ)),
     ("last_accessed", .num (m.last_accessed : ℚ)),
     ("metadata", m.metadata.encode)])

/-! ## Decoding (serde `Deserialize`, including the per-field range
validators of src/memories.rs and src/memories/fragment.rs; the
`Value` struct of src/personality/value.rs carries no such validator) -/

/-- Decode `Value` (src/personality/value.rs): plain derived `Deserialize`,
no range validation on `importance`. -/
def decodeValueConflict (j : Json) : Option ValueConflict :=
  match j with
  | .obj fs => do
    let id ← optF fs "id" Json.asStr
    let value ← (jget fs "value").bind Json.asStr
    let resolution ← (jget fs "resolution").bind Json.asStr
    some ⟨id, value, resolution⟩
  | _ => none

def decodeValue (j : Json) : Option Value :=
  match j with
  | .obj fs => do
    let id ← optF fs "id" Json.asStr
    let name ← (jget fs "name").bind Json.asStr
    let importance ← (jget fs "importance").bind Json.asNum
    let expression ← (jget fs "expression").bind Json.asStr
    let conflicts ← optF fs "conflicts"
      (fun cj => cj.asArr.bind (List.mapM decodeValueConflict))
    some ⟨id, name, importance, expression, conflicts⟩
  | _ => none

def decodeTrait (j : Json) : Option Trait :=
  match j with
  | .obj fs => do
    let id ← optF fs "id" Json.asStr
    let name ← (jget fs "trait").bind Json.asStr
    let strength ← (jget fs "strength").bind Json.asNum
    let rules ← optF fs "expression_rules" decodeStrList
    some ⟨id, name, strength, rules⟩
  | _ => none

def decodeVoice (j : Json) : Option Voice :=
  match j with
  | .obj fs => do
    let id ← optF fs "id" Json.asStr
    let style ← (jget fs "style").bind Json.asStr
    let tone ← (jget fs "tone").bind Json.asStr
    let qualities ← (jget fs "qualities").bind decodeStrList
    let patterns ← (jget fs "patterns").bind decodeStrList
    some ⟨id, style, tone, qualities, patterns⟩
  | _ => none

def decodeEnforcement (j : Json) : Option EnforcementType :=
  match j with
  | .str "strict" => some .strict
  | .str "flexible" => some .flexible
  | .str "situational" => some .situational
  | _ => none

def decodeBoundary (j : Json) : Option Boundary :=
  match j with
  | .obj fs => do
    let id ← optF fs "id" Json.asStr
    let ty ← (jget fs "type").bind Json.asStr
    let description ← (jget fs "description").bind Json.asStr
    let enforcement ← (jget fs "enforcement").bind decodeEnforcement
    some ⟨id, ty, description, enforcement⟩
  | _ => none

def decodeRelationship (j : Json) : Option Relationship :=
  match j with
  | .obj fs => do
    let id ← optF fs "id" Json.asStr
    let style ← (jget fs "style").bind Json.asStr
    let boundaries ← (jget fs "boundaries").bind
      (fun bj => bj.asArr.bind (List.mapM decodeBoundary))
    some ⟨id, style, boundaries⟩
  | _ => none

def decodeMetadata (j : Json) : Option Metadata :=
  match j with
  | .obj fs => fs.mapM fun kv => (kv.2.asStr).map fun v => (kv.1, v)
  | _ => none

def decodePersonality (j : Json) : Option Personality :=
  match j with
  | .obj fs => do
    let id ← optF fs "id" Json.asStr
    let name ← (jget fs "name").bind Json.asStr
    let traits ← (jget fs "traits").bind
      (fun tj => tj.asArr.bind (List.mapM decodeTrait))
    let values ← optF fs "values"
      (fun vj => vj.asArr.bind (List.mapM decodeValue))
    let voice ← optF fs "voice" decodeVoice
    let relationship ← optF fs "relationship" decodeRelationship
    let metadata ← optF fs "metadata" decodeMetadata
    some ⟨id, name, traits, values, voice, relationship, metadata⟩
  | _ => none

def decodeEntity (j : Json) : Option Entity :=
  match j with
  | .obj fs => do
    let id ← optF fs "id" Json.asStr
    let form ← (jget fs "form").bind Json.asStr
    let occupation ← (jget fs "occupation").bind Json.asStr
    let gender ← optF fs "gender" Json.asStr
    let age ← optF fs "age" Json.asStr
    let background ← optF fs "background" Json.asStr
    let expertise ← optF fs "expertise" decodeStrList
    some ⟨id, form, occupation, gender, age, background, expertise⟩
  | _ => none

def decodeSoul (j : Json) : Option Soul :=
  match j with
  | .obj fs => do
    let version ← (jget fs "version").bind Json.asStr
    let id ← optF fs "id" Json.asStr
    let entity ← (jget fs "entity").bind decodeEntity
    let personality ← (jget fs "personality").bind decodePersonality
    some ⟨version, id, entity, personality⟩
  | _ => none

/-- Decode `EmotionalSignature` (src/memories.rs): the `validate_valence` and
`validate_intensity` hooks reject values outside [-1,1] resp. [0,1].
Written with explicit matches to ease the round-trip proofs. -/
def decodeEmotionalSignature (j : Json) : Option EmotionalSignature :=
  match j with
  | .obj fs =>
    match optF fs "id" Json.asStr with
    | none => none
    | some id =>
      match (jget fs "valence").bind Json.asNum with
      | none => none
      | some v =>
        if -1 ≤ v ∧ v ≤ 1 then
          match (jget fs "intensity").bind Json.asNum with
          | none => none
          | some i =>
            if 0 ≤ i ∧ i ≤ 1 then some ⟨id, v, i⟩ else none
        else none
  | _ => none

def decodeFragmentType (j : Json) : Option FragmentType :=
  match j with
  | .str "observation" => some .observation
  | .str "reflection" => some .reflection
  | _ => none

def decodeContext (j : Json) : Option Context :=
  match j with
  | .obj fs => do
    let id ← optF fs "id" Json.asStr
    let topic ← (jget fs "topic").bind Json.asStr
    let user_state ← (jget fs "user_state").bind Json.asStr
    some ⟨id, topic, user_state⟩
  | _ => none

/-- Decode `Fragment` (src/memories/fragment.rs): `validate_importance`
rejects importance outside [0,1] and `validate_emotional_valence` rejects
valence outside [-1,1]. -/
def decodeFragment (j : Json) : Option Fragment :=
  match j with
  | .obj fs => do
    let id ← optF fs "id" Json.asStr
    let ty ← (jget fs "type").bind decodeFragmentType
    let content ← (jget fs "content").bind Json.asStr
    let timestamp ← (jget fs "timestamp").bind Json.asInt
    let importance ← (jget fs "importance").bind Json.asNum
    if 0 ≤ importance ∧ importance ≤ 1 then do
      let valence ← (jget fs "emotional_valence").bind Json.asNum
      if -1 ≤ valence ∧ valence ≤ 1 then do
        let context ← (jget fs "context").bind decodeContext
        some ⟨id, ty, content, timestamp, importance, valence, context⟩
      else none
    else none
  | _ => none

def decodeMemoryMetadata (j : Json) : Option MemoryMetadata :=
  match j with
  | .obj fs => do
    let id ← optF fs "id" Json.asStr
    let topic_tags ← (jget fs "topic_tags").bind decodeStrList
    let influence ← (jget fs "personality_influence").bind decodeStrList
    let memory_type ← (jget fs "memory_type").bind Json.asStr
    some ⟨id, topic_tags, influence, memory_type⟩
  | _ => none

/-- Decode `Memory` (src/memories.rs): `validate_importance_score` rejects
scores outside [0,1]; `uuid_vec_format` reads connections as strings. -/
def decodeMemory (j : Json) : Option Memory :=
  match j with
  | .obj fs => do
    let id ← optF fs "id" Json.asStr
    let memory ← (jget fs "memory").bind Json.asStr
    let fragments ← (jget fs "fragments").bind
      (fun fj => fj.asArr.bind (List.mapM decodeFragment))
    let connections ← (jget fs "connections").bind decodeStrList
    let signature ← (jget fs "emotional_signature").bind decodeEmotionalSignature
    let score ← (jget fs "importance_score").bind Json.asNum
    if 0 ≤ score ∧ score ≤ 1 then do
      let creation_date ← (jget fs "creation_date").bind Json.asInt
      let last_accessed ← (jget fs "last_accessed").bind Json.asInt
      let metadata ← (jget fs "metadata").bind decodeMemoryMetadata
      some ⟨id, memory, fragments, connections, signature, score,
            creation_date, last_accessed, metadata⟩
    else none
  | _ => none

/-! ## Builders

Rust setter methods share the name of the field they set; in Lean the
projection already owns that name, so setters are prefixed with `set`
(`add…` names are kept as in the source). Functions that read the wall
clock take the current instant as a parameter. -/

/-- `EntityBuilderError` from src/entity.rs. -/
inductive EntityBuilderError where
  | missingForm | missingOccupation
deriving DecidableEq, Repr

/-- `EntityBuilder` from src/entity.rs. -/
structure EntityBuilder where
  form : Option String
  occupation : Option String
  gender : Option String
  age : Option String
  background : Option String
  expertise : Option (List String)
deriving DecidableEq, Repr

def EntityBuilder.new : EntityBuilder :=
  ⟨none, none, none, none, none, none⟩

def EntityBuilder.setForm (b : EntityBuilder) (v : String) : EntityBuilder :=
  { b with form := some v }

def EntityBuilder.setOccupation (b : EntityBuilder) (v : String) : EntityBuilder :=
  { b with occupation := some v }

def EntityBuilder.setGender (b : EntityBuilder) (v : String) : EntityBuilder :=
  { b with gender := some v }

def EntityBuilder.setAge (b : EntityBuilder) (v : String) : EntityBuilder :=
  { b with age := some v }

def EntityBuilder.setBackground (b : EntityBuilder) (v : String) : EntityBuilder :=
  { b with background := some v }

def EntityBuilder.setExpertise (b : EntityBuilder) (v : List String) : EntityBuilder :=
  { b with expertise := some v }

/-- `EntityBuilder::build`: `form` is demanded before `occupation`,
exactly as the two `ok_or` lines order it in the source. -/
def EntityBuilder.build (b : EntityBuilder) : Except EntityBuilderError Entity :=
  match b.form with
  | none => .error .missingForm
  | some form =>
    match b.occupation with
    | none => .error .missingOccupation
    | some occupation =>
      .ok ⟨none, form, occupation, b.gender, b.age, b.background, b.expertise⟩

/-- `ValueBuilder` from src/personality/value.rs. -/
structure ValueBuilder where
  name : Option String
  importance : Option ℚ
  expression : Option String
  conflicts : Option (List ValueConflict)
deriving DecidableEq, Repr

def ValueBuilder.new : ValueBuilder := ⟨none, none, none, none⟩

def ValueBuilder.setName (b : ValueBuilder) (v : String) : ValueBuilder :=
  { b with name := some v }

/-- `ValueBuilder::importance`: stores the argument clamped into [0,1]. -/
def ValueBuilder.setImportance (b : ValueBuilder) (v : ℚ) : ValueBuilder :=
  { b with importance := some (clampQ v 0 1) }

def ValueBuilder.setExpression (b : ValueBuilder) (v : String) : ValueBuilder :=
  { b with expression := some v }

def ValueBuilder.setConflicts (b : ValueBuilder) (v : List ValueConflict) : ValueBuilder :=
  { b with conflicts := some v }

/-- `ValueBuilder::build`: errors are the `&'static str` messages of the source. -/
def ValueBuilder.build (b : ValueBuilder) : Except String Value :=
  match b.name with
  | none => .error "name is required"
  | some name =>
    match b.importance with
    | none => .error "importance is required"
    | some importance =>
      match b.expression with
      | none => .error "expression is required"
      | some expression =>
        .ok ⟨none, name, importance, expression, b.conflicts⟩

/-- `VoiceBuilder` from src/personality/voice.rs. -/
structure VoiceBuilder where
  style : Option String
  tone : Option String
  qualities : Option (List String)
  patterns : Option (List String)
deriving DecidableEq, Repr

def VoiceBuilder.new : VoiceBuilder := ⟨none, none, none, none⟩

def VoiceBuilder.setStyle (b : VoiceBuilder) (v : String) : VoiceBuilder :=
  { b with style := some v }

def VoiceBuilder.setTone (b : VoiceBuilder) (v : String) : VoiceBuilder :=
  { b with tone := some v }

def VoiceBuilder.setQualities (b : VoiceBuilder) (v : List String) : VoiceBuilder :=
  { b with qualities := some v }

def VoiceBuilder.setPatterns (b : VoiceBuilder) (v : List String) : VoiceBuilder :=
  { b with patterns := some v }

def VoiceBuilder.build (b : VoiceBuilder) : Except String Voice :=
  match b.style with
  | none => .error "style is required"
  | some style =>
    match b.tone with
    | none => .error "tone is required"
    | some tone =>
      match b.qualities with
      | none => .error "qualities is required"
      | some qualities =>
        match b.patterns with
        | none => .error "patterns is required"
        | some patterns =>
          .ok ⟨none, style, tone, qualities, patterns⟩

/-- `PersonalityBuilderError` from src/personality.rs. -/
inductive PersonalityBuilderError where
  | missingName | noTraits
deriving DecidableEq, Repr

/-- `PersonalityBuilder` from src/personality.rs; the only builder of the
model with an `id` setter. -/
structure PersonalityBuilder where
  id : Option String
  name : Option String
  traits : List Trait
  values : Option (List Value)
  voice : Option Voice
  relationship : Option Relationship
  metadata : Option Metadata
deriving DecidableEq, Repr

def PersonalityBuilder.new : PersonalityBuilder :=
  ⟨none, none, [], none, none, none, none⟩

def PersonalityBuilder.setId (b : PersonalityBuilder) (v : String) : PersonalityBuilder :=
  { b with id := some v }

def PersonalityBuilder.setName (b : PersonalityBuilder) (v : String) : PersonalityBuilder :=
  { b with name := some v }

def PersonalityBuilder.addTrait (b : PersonalityBuilder) (t : Trait) : PersonalityBuilder :=
  { b with traits := b.traits ++ [t] }

def PersonalityBuilder.addValue (b : PersonalityBuilder) (v : Value) : PersonalityBuilder :=
  { b with values := some (b.values.getD [] ++ [v]) }

def PersonalityBuilder.setVoice (b : PersonalityBuilder) (v : Voice) : PersonalityBuilder :=
  { b with voice := some v }

def PersonalityBuilder.setRelationship (b : PersonalityBuilder) (r : Relationship) :
    PersonalityBuilder :=
  { b with relationship := some r }

def PersonalityBuilder.setMetadata (b : PersonalityBuilder) (k v : String) :
    PersonalityBuilder :=
  { b with metadata := some (mdInsert (b.metadata.getD []) k v) }

/-- `PersonalityBuilder::build` with `now` the value of
`chrono::Utc::now().date_naive().to_string()` at build time. The source
inserts `creation_date` only when absent but inserts `last_modified`
unconditionally, overwriting any caller-supplied entry. -/
def PersonalityBuilder.build (b : PersonalityBuilder) (now : String) :
    Except PersonalityBuilderError Personality :=
  match b.name with
  | none => .error .missingName
  | some name =>
    if b.traits.isEmpty then .error .noTraits
    else
      let md0 := b.metadata.getD []
      let md1 := if mdContains md0 "creation_date" then md0
                 else mdInsert md0 "creation_date" now
      let md2 := mdInsert md1 "last_modified" now
      .ok ⟨b.id, name, b.traits, b.values, b.voice, b.relationship, some md2⟩

/-- `SoulBuilder` from src/soul.rs. -/
structure SoulBuilder where
  version : Option String
  entity : Option Entity
  personality : Option Personality
deriving DecidableEq, Repr

def SoulBuilder.new : SoulBuilder := ⟨none, none, none⟩

def SoulBuilder.setVersion (b : SoulBuilder) (v : String) : SoulBuilder :=
  { b with version := some v }

def SoulBuilder.setEntity (b : SoulBuilder) (e : Entity) : SoulBuilder :=
  { b with entity := some e }

def SoulBuilder.setPersonality (b : SoulBuilder) (p : Personality) : SoulBuilder :=
  { b with personality := some p }

/-- `Entity::default` from src/entity.rs. -/
def Entity.default : Entity :=
  ⟨none, "ai", "assistant", none, none, none, none⟩

/-- `Personality::default` from src/personality.rs, with `now` the
date string read from the clock. -/
def Personality.default (now : String) : Personality :=
  ⟨none, "AI Assistant",
   [⟨none, "helpful", 0.9, some ["always seeks to assist"]⟩,
    ⟨none, "professional", 0.8, some ["maintains appropriate boundaries"]⟩],
   none, none, none,
   some [("creation_date", now), ("last_modified", now)]⟩

/-- `SoulBuilder::build` (infallible; defaults substituted for unset fields),
with `now` threaded to `Personality::default`. -/
def SoulBuilder.build (b : SoulBuilder) (now : String) : Soul :=
  ⟨b.version.getD "1.0", none, b.entity.getD Entity.default,
   b.personality.getD (Personality.default now)⟩

/-- `MemoryBuilder` from src/memories.rs. -/
structure MemoryBuilder where
  memory : String
  fragments : List Fragment
  connections : List String
  emotional_signature : Option EmotionalSignature
  importance_score : ℚ
  creation_date : ℤ
  last_accessed : Option ℤ
  metadata : Option MemoryMetadata
deriving DecidableEq, Repr

/-- `MemoryBuilder::new`: note that `creation_date` is stamped *here*,
at builder-creation time (`nowAtNew`), not at build time. -/
def MemoryBuilder.new (memory : String) (nowAtNew : ℤ) : MemoryBuilder :=
  ⟨memory, [], [], none, 0, nowAtNew, none, none⟩

def MemoryBuilder.addFragment (b : MemoryBuilder) (f : Fragment) : MemoryBuilder :=
  { b with fragments := b.fragments ++ [f] }

def MemoryBuilder.addConnection (b : MemoryBuilder) (c : String) : MemoryBuilder :=
  { b with connections := b.connections ++ [c] }

def MemoryBuilder.setEmotionalSignature (b : MemoryBuilder) (s : EmotionalSignature) :
    MemoryBuilder :=
  { b with emotional_signature := some s }

def MemoryBuilder.setImportanceScore (b : MemoryBuilder) (s : ℚ) : MemoryBuilder :=
  { b with importance_score := s }

def MemoryBuilder.setLastAccessed (b : MemoryBuilder) (t : ℤ) : MemoryBuilder :=
  { b with last_accessed := some t }

def MemoryBuilder.setMetadata (b : MemoryBuilder) (m : MemoryMetadata) : MemoryBuilder :=
  { b with metadata := some m }

/-- `MemoryMetadata::default`. -/
def MemoryMetadata.default : MemoryMetadata :=
  ⟨none, [], [], "default"⟩

/-- `EmotionalSignature::default`. -/
def EmotionalSignature.default : EmotionalSignature :=
  ⟨none, 0, 0⟩

/-- `MemoryBuilder::build` with `nowAtBuild` the clock value at build time:
`creation_date` is copied from the builder; `last_accessed` defaults to
`nowAtBuild` only when never set. -/
def MemoryBuilder.build (b : MemoryBuilder) (nowAtBuild : ℤ) : Memory :=
  ⟨none, b.memory, b.fragments, b.connections,
   b.emotional_signature.getD EmotionalSignature.default,
   b.importance_score, b.creation_date,
   b.last_accessed.getD nowAtBuild,
   b.metadata.getD MemoryMetadata.default⟩

/-- `FragmentBuilder` from src/memories/fragment.rs (its private `uuid`
field has no setter and is ignored by `build`). -/
structure FragmentBuilder where
  uuid : Option String
  fragment_type : FragmentType
  content : String
  timestamp : Option ℤ
  importance : ℚ
  emotional_valence : ℚ
  context : Option Context
deriving DecidableEq, Repr

def FragmentBuilder.new (ty : FragmentType) (content : String) : FragmentBuilder :=
  ⟨none, ty, content, none, 0, 0, none⟩

def FragmentBuilder.setFragmentType (b : FragmentBuilder) (ty : FragmentType) :
    FragmentBuilder :=
  { b with fragment_type := ty }

def FragmentBuilder.setContent (b : FragmentBuilder) (c : String) : FragmentBuilder :=
  { b with content := c }

def FragmentBuilder.setTimestamp (b : FragmentBuilder) (t : ℤ) : FragmentBuilder :=
  { b with timestamp := some t }

def FragmentBuilder.setImportance (b : FragmentBuilder) (i : ℚ) : FragmentBuilder :=
  { b with importance := i }

def FragmentBuilder.setEmotionalValence (b : FragmentBuilder) (v : ℚ) : FragmentBuilder :=
  { b with emotional_valence := v }

def FragmentBuilder.setContext (b : FragmentBuilder) (c : Context) : FragmentBuilder :=
  { b with context := some c }

/-- `FragmentBuilder::build` with `nowAtBuild` the clock value at build
time: `timestamp` defaults to `nowAtBuild` only when never set. -/
def FragmentBuilder.build (b : FragmentBuilder) (nowAtBuild : ℤ) : Fragment :=
  ⟨none, b.fragment_type, b.content,
   b.timestamp.getD nowAtBuild,
   b.importance, b.emotional_valence,
   b.context.getD ⟨none, "general", "neutral"⟩⟩

/-! ## Resource client protocol

A transport is a function from a request path to `none` (transport-level
failure) or `some (status, body)`. Each operation classifies the outcome
exactly as the source does: only status 200 (`reqwest::StatusCode::OK`)
proceeds; everything else collapses into the resource's opaque unit
failure value. -/

/-- `CorruptPersonality` from src/personality.rs: an opaque unit struct. -/
inductive CorruptPersonality where
  | mk
deriving DecidableEq, Repr

/-- `CorruptSoul` from src/soul.rs: an opaque unit struct. -/
inductive CorruptSoul where
  | mk
deriving DecidableEq, Repr

/-- `CorruptMemory` from src/memories.rs: an opaque unit struct. -/
inductive CorruptMemory where
  | mk
deriving DecidableEq, Repr

/-- A transport collaborator: request path to optional `(status, body)`. -/
def Transport : Type := String → Option (ℕ × Json)

/-- The request path built by get/update/delete for every resource kind. -/
def personalityPath (id : String) : String :=
  "/personality/" ++ id

/-- `Personality::get` from src/personality.rs. -/
def Personality.get (id : String) (t : Transport) :
    Except CorruptPersonality Personality :=
  match t (personalityPath id) with
  | none => .error .mk
  | some (status, body) =>
    if status = 200 then
      match decodePersonality body with
      | some p => .ok p
      | none => .error .mk
    else .error .mk

/-- `Soul::get` from src/soul.rs. -/
def Soul.get (id : String) (t : Transport) : Except CorruptSoul Soul :=
  match t (personalityPath id) with
  | none => .error .mk
  | some (status, body) =>
    if status = 200 then
      match decodeSoul body with
      | some s => .ok s
      | none => .error .mk
    else .error .mk

/-- `Memory::get` from src/memories.rs. -/
def Memory.get (id : String) (t : Transport) : Except CorruptMemory Memory :=
  match t (personalityPath id) with
  | none => .error .mk
  | some (status, body) =>
    if status = 200 then
      match decodeMemory body with
      | some m => .ok m
      | none => .error .mk
    else .error .mk

/-- `Soul::delete` from src/soul.rs: succeeds only on status 200. -/
def Soul.delete (id : String) (t : Transport) : Except CorruptSoul Unit :=
  match t (personalityPath id) with
  | none => .error .mk
  | some (status, _) => if status = 200 then .ok () else .error .mk

/-- `Memory::delete` from src/memories.rs: succeeds only on status 200. -/
def Memory.delete (id : String) (t : Transport) : Except CorruptMemory Unit :=
  match t (personalityPath id) with
  | none => .error .mk
  | some (status, _) => if status = 200 then .ok () else .error .mk

/-! ## Helper lemmas -/

theorem jget_append (l₁ l₂ : List (String × Json)) (k : String) :
    jget (l₁ ++ l₂) k =
      match jget l₁ k with
      | some v => some v
      | none => jget l₂ k := by
  induction l₁ with
  | nil => simp [jget]
  | cons p rest ih =>
    obtain ⟨k', v⟩ := p
    by_cases h : k = k' <;> simp [jget, h, ih]

theorem jget_optField_ne {k k' : String} (v : Option Json) (h : ¬k = k') :
    jget (optField k' v) k = none := by
  cases v <;> simp [optField, jget, h]

theorem jget_optField_none (k k' : String) : jget (optField k none) k' = none := rfl

/-! ## Claim theorems -/

/-- Claim C1, counterexample: feeding the canonical `Value` decoder an
importance of 3/2 — strictly outside [0,1] — does not fail: it produces a
full `Value` record carrying importance 3/2. The derived `Deserialize` of
src/personality/value.rs has no range validator. -/
theorem C1_counterexample :
    (1 : ℚ) < 3 / 2 ∧
    decodeValue (Json.obj [("name", .str "x"), ("importance", .num (3 / 2)),
        ("expression", .str "y")])
      = some ⟨none, "x", 3 / 2, "y", none⟩ := by
  refine ⟨by norm_num, ?_⟩
  rfl

/-- Claim C1 (corrected): for every JSON object carrying `name`,
`importance` and `expression` fields, decoding into a `Value` succeeds and
the resulting importance is the raw input number unchanged — the decoder
neither rejects out-of-range importance nor clamps it. -/
theorem C1_amended (n e : String) (q : ℚ) :
    decodeValue (Json.obj [("name", .str n), ("importance", .num q),
        ("expression", .str e)])
      = some ⟨none, n, q, e, none⟩ := by
  simp [decodeValue, optF, jget, Json.asStr, Json.asNum]

/-- Claim C3 (confirmed): on any `ValueBuilder` whose name and expression
are set, calling the importance setter with `x` and then `build()` succeeds
and yields importance `x` clamped into [0,1]; in particular 3/2 clamps to
exactly 1 and -1/2 clamps to exactly 0. -/
theorem C3_importance_clamp (b : ValueBuilder) (n e : String) (x : ℚ)
    (hn : b.name = some n) (he : b.expression = some e) :
    (b.setImportance x).build = .ok ⟨none, n, clampQ x 0 1, e, b.conflicts⟩ ∧
    clampQ (3 / 2) 0 1 = 1 ∧ clampQ (-1 / 2) 0 1 = 0 := by
  refine ⟨?_, by norm_num [clampQ], by norm_num [clampQ]⟩
  obtain ⟨bn, bi, be, bc⟩ := b
  simp_all [ValueBuilder.setImportance, ValueBuilder.build]

/-- Witness for C3 at a concrete builder pipeline. -/
theorem C3_witness :
    (((ValueBuilder.new.setName "honesty").setExpression "tells truth").setImportance
        (3 / 2)).build
      = .ok ⟨none, "honesty", clampQ (3 / 2) 0 1, "tells truth", none⟩ :=
  (C3_importance_clamp ((ValueBuilder.new.setName "honesty").setExpression "tells truth")
    "honesty" "tells truth" (3 / 2) rfl rfl).1

/-- Claim C6 (code_bug): the source's own test suite supplies
`last_modified = "2025-01-11"` and asserts it survives `build()`, but
`PersonalityBuilder::build` unconditionally overwrites `last_modified`
with the build-time date (only `creation_date` is guarded by a
`contains_key` check). Building the test's pipeline at a later instant
yields `last_modified = "2026-10-12"`, not the supplied value. -/
theorem C6_codebug :
    (((((PersonalityBuilder.new.setName "Dr. Luna").addTrait
          ⟨none, "sarcastic", 0.95, none⟩).setMetadata "creation_date"
          "2025-01-11").setMetadata "last_modified" "2025-01-11").build "2026-10-12")
      = .ok ⟨none, "Dr. Luna", [⟨none, "sarcastic", 0.95, none⟩], none, none, none,
          some [("creation_date", "2025-01-11"), ("last_modified", "2026-10-12")]⟩ ∧
    ("2026-10-12" : String) ≠ "2025-01-11" := by
  refine ⟨rfl, by decide⟩

/-- Claim C7, counterexample: `Memory`'s `creation_date` is stamped at
builder-creation time, not at `build()` time: creating the builder at
instant 0 and building at instant 1 yields `creation_date = 0`. -/
theorem C7_counterexample :
    ((MemoryBuilder.new "m" 0).build 1).creation_date = 0 ∧ (0 : ℤ) ≠ 1 := by
  exact ⟨rfl, by decide⟩

/-- Claim C7 (corrected): `Memory.last_accessed` and `Fragment.timestamp`
are computed lazily at `build()` time when never set, but `Memory.creation_date`
is computed eagerly in `MemoryBuilder::new` and copied unchanged by `build()`. -/
theorem C7_amended :
    (∀ (m : String) (t₀ t₁ : ℤ), ((MemoryBuilder.new m t₀).build t₁).creation_date = t₀) ∧
    (∀ (b : MemoryBuilder) (t₁ : ℤ), (b.build t₁).creation_date = b.creation_date) ∧
    (∀ (b : MemoryBuilder) (t₁ : ℤ), b.last_accessed = none →
      (b.build t₁).last_accessed = t₁) ∧
    (∀ (b : FragmentBuilder) (t₁ : ℤ), b.timestamp = none →
      (b.build t₁).timestamp = t₁) := by
  refine ⟨fun m t₀ t₁ => rfl, fun b t₁ => rfl, fun b t₁ h => ?_, fun b t₁ h => ?_⟩
  · simp [MemoryBuilder.build, h]
  · simp [FragmentBuilder.build, h]

/-- Witness for C7 (corrected) at concrete instants. -/
theorem C7_witness :
    ((MemoryBuilder.new "m" 5).build 7).creation_date = 5 ∧
    ((MemoryBuilder.new "m" 5).build 7).last_accessed = 7 ∧
    ((FragmentBuilder.new .observation "c").build 7).timestamp = 7 :=
  ⟨C7_amended.1 "m" 5 7,
   C7_amended.2.2.1 (MemoryBuilder.new "m" 5) 7 rfl,
   C7_amended.2.2.2 (FragmentBuilder.new .observation "c") 7 rfl⟩

/-- Claim C9, counterexample: a builder on which `occupation` was never set
does not always fail naming `occupation` — when `form` is also unset the
error is `MissingForm`, because `build()` demands `form` first. -/
theorem C9_counterexample :
    EntityBuilder.new.build = .error .missingForm ∧
    EntityBuilderError.missingForm ≠ EntityBuilderError.missingOccupation := by
  exact ⟨rfl, by decide⟩

/-- Claim C9 (corrected): a builder with `form` set but `occupation` never
set fails with `MissingOccupation`; a builder with neither fails with
`MissingForm`; and a builder with exactly `form` and `occupation` set
succeeds with every optional field absent in the result. -/
theorem C9_amended :
    (∀ (b : EntityBuilder) (f : String), b.form = some f → b.occupation = none →
      b.build = .error .missingOccupation) ∧
    EntityBuilder.new.build = .error .missingForm ∧
    (∀ f o : String, ((EntityBuilder.new.setForm f).setOccupation o).build
      = .ok ⟨none, f, o, none, none, none, none⟩) := by
  refine ⟨fun b f hf ho => ?_, rfl, fun f o => rfl⟩
  obtain ⟨bf, bo, bg, ba, bb, be⟩ := b
  simp_all [EntityBuilder.build]

/-- Witness for C9 (corrected) at a concrete builder. -/
theorem C9_witness :
    (EntityBuilder.new.setForm "human").build = .error .missingOccupation :=
  C9_amended.1 (EntityBuilder.new.setForm "human") "human" rfl rfl

/-- Claim C10 (confirmed): whenever the Entity, Value, Voice, Soul, Memory
or Fragment builder produces a record, that record's id is `none` — none of
these builders exposes an id setter — while `PersonalityBuilder.setId`
carries a supplied id into the built record. -/
theorem C10_builder_ids :
    (∀ (b : EntityBuilder) (e : Entity), b.build = .ok e → e.id = none) ∧
    (∀ (b : ValueBuilder) (v : Value), b.build = .ok v → v.id = none) ∧
    (∀ (b : VoiceBuilder) (v : Voice), b.build = .ok v → v.id = none) ∧
    (∀ (b : SoulBuilder) (now : String), (b.build now).id = none) ∧
    (∀ (b : MemoryBuilder) (t : ℤ), (b.build t).id = none) ∧
    (∀ (b : FragmentBuilder) (t : ℤ), (b.build t).id = none) ∧
    (∀ (b : PersonalityBuilder) (u now : String) (p : Personality),
      (b.setId u).build now = .ok p → p.id = some u) := by
  refine ⟨fun b e h => ?_, fun b v h => ?_, fun b v h => ?_,
    fun b now => rfl, fun b t => rfl, fun b t => rfl, fun b u now p h => ?_⟩
  · obtain ⟨f, o, _, _, _, _⟩ := b
    cases f <;> cases o <;> simp_all [EntityBuilder.build]
    subst h
    rfl
  · obtain ⟨n, i, e', _⟩ := b
    cases n <;> cases i <;> cases e' <;> simp_all [ValueBuilder.build]
    subst h
    rfl
  · obtain ⟨s, t', q, pa⟩ := b
    cases s <;> cases t' <;> cases q <;> cases pa <;> simp_all [VoiceBuilder.build]
    subst h
    rfl
  · obtain ⟨i, n, tr, va, vo, re, md⟩ := b
    cases n with
    | none => simp [PersonalityBuilder.setId, PersonalityBuilder.build] at h
    | some nm =>
      simp only [PersonalityBuilder.setId, PersonalityBuilder.build] at h
      split at h
      · simp at h
      · simp_all
        subst h
        rfl

/-- Witness for C10 at concrete builder pipelines. -/
theorem C10_witness :
    (⟨none, "human", "dev", none, none, none, none⟩ : Entity).id = none ∧
    (⟨none, "n", clampQ 1 0 1, "e", none⟩ : Value).id = none ∧
    (⟨none, "s", "t", [], []⟩ : Voice).id = none ∧
    (SoulBuilder.new.build "2026-10-12").id = none ∧
    ((MemoryBuilder.new "m" 0).build 1).id = none ∧
    ((FragmentBuilder.new .observation "c").build 1).id = none ∧
    (⟨some "u1", "n", [⟨none, "t", 1 / 2, none⟩], none, none, none,
        some [("creation_date", "d"), ("last_modified", "d")]⟩ : Personality).id
      = some "u1" :=
  ⟨C10_builder_ids.1 ((EntityBuilder.new.setForm "human").setOccupation "dev") _ rfl,
   C10_builder_ids.2.1
     (((ValueBuilder.new.setName "n").setImportance 1).setExpression "e") _ rfl,
   C10_builder_ids.2.2.1
     (((VoiceBuilder.new.setStyle "s").setTone "t").setQualities [] |>.setPatterns []) _ rfl,
   C10_builder_ids.2.2.2.1 SoulBuilder.new "2026-10-12",
   C10_builder_ids.2.2.2.2.1 (MemoryBuilder.new "m" 0) 1,
   C10_builder_ids.2.2.2.2.2.1 (FragmentBuilder.new .observation "c") 1,
   C10_builder_ids.2.2.2.2.2.2
     ((PersonalityBuilder.new.setName "n").addTrait ⟨none, "t", 1 / 2, none⟩) "u1" "d" _ rfl⟩

/-- Claim C2 (confirmed): for every resource kind (Personality, Soul,
Memory) a `get` whose transport answers HTTP 404 and a `get` whose
transport answers HTTP 200 with an undecodable body return the *same*
opaque failure value — the outcomes are equal, and the failure type is a
unit carrying no status code. -/
theorem C2_get_collapse (idA idB : String) (tA tB : Transport) (bodyA bodyB : Json)
    (hA : tA (personalityPath idA) = some (404, bodyA))
    (hB : tB (personalityPath idB) = some (200, bodyB))
    (hP : decodePersonality bodyB = none)
    (hS : decodeSoul bodyB = none)
    (hM : decodeMemory bodyB = none) :
    Personality.get idA tA = .error .mk ∧
    Personality.get idB tB = .error .mk ∧
    Personality.get idA tA = Personality.get idB tB ∧
    Soul.get idA tA = .error .mk ∧
    Soul.get idB tB = .error .mk ∧
    Soul.get idA tA = Soul.get idB tB ∧
    Memory.get idA tA = .error .mk ∧
    Memory.get idB tB = .error .mk ∧
    Memory.get idA tA = Memory.get idB tB := by
  simp [Personality.get, Soul.get, Memory.get, hA, hB, hP, hS, hM]

/-- Witness for C2: concrete transports answering 404 resp. 200 with a
body (JSON null) that decodes as none of the three resource kinds. -/
theorem C2_witness :
    Personality.get "abc" (fun _ => some (404, Json.null))
      = Personality.get "abc" (fun _ => some (200, Json.null)) :=
  (C2_get_collapse "abc" "abc" (fun _ => some (404, Json.null))
    (fun _ => some (200, Json.null)) Json.null Json.null rfl rfl rfl rfl rfl).2.2.1

/-- Claim C5, counterexample: a delete answered with HTTP 204 — a success
status — is *not* treated as confirmation: both `Soul::delete` and
`Memory::delete` match only status 200 and map 204 to the opaque failure. -/
theorem C5_counterexample :
    Soul.delete "abc" (fun _ => some (204, Json.null)) = .error .mk ∧
    Memory.delete "abc" (fun _ => some (204, Json.null)) = .error .mk ∧
    200 ≤ 204 ∧ 204 < 300 := by
  exact ⟨rfl, rfl, by norm_num, by norm_num⟩

/-- Claim C5 (corrected): `delete` (on Soul and on Memory) returns success
with no payload exactly when the transport's response carries status 200;
every other outcome — transport failure, any non-200 status including
other success statuses such as 204 — yields the resource's opaque failure
value. -/
theorem C5_amended :
    (∀ (id : String) (t : Transport) (st : ℕ) (b : Json),
      t (personalityPath id) = some (st, b) →
      (Soul.delete id t = .ok () ↔ st = 200) ∧
      (Memory.delete id t = .ok () ↔ st = 200) ∧
      (st ≠ 200 → Soul.delete id t = .error .mk ∧ Memory.delete id t = .error .mk)) ∧
    (∀ (id : String) (t : Transport), t (personalityPath id) = none →
      Soul.delete id t = .error .mk ∧ Memory.delete id t = .error .mk) := by
  constructor
  · intro id t st b h
    by_cases hst : st = 200 <;> simp [Soul.delete, Memory.delete, h, hst]
  · intro id t h
    simp [Soul.delete, Memory.delete, h]

/-- Witness for C5 (corrected) at concrete transports. -/
theorem C5_witness :
    (Soul.delete "abc" (fun _ => some (200, Json.null)) = .ok () ↔ (200 : ℕ) = 200) ∧
    Soul.delete "abc" (fun _ => none) = .error .mk :=
  ⟨(C5_amended.1 "abc" (fun _ => some (200, Json.null)) 200 Json.null rfl).1,
   (C5_amended.2 "abc" (fun _ => none) rfl).1⟩

/-- A successful `EmotionalSignature` decode only ever produces in-range
fields (the wire validators reject everything else). -/
theorem decodeEmotionalSignature_ranges {j : Json} {s : EmotionalSignature}
    (h : decodeEmotionalSignature j = some s) :
    -1 ≤ s.valence ∧ s.valence ≤ 1 ∧ 0 ≤ s.intensity ∧ s.intensity ≤ 1 := by
  cases j <;> simp only [decodeEmotionalSignature] at h <;> try exact absurd h (by simp)
  split at h
  · exact absurd h (by simp)
  · split at h
    · exact absurd h (by simp)
    · split at h
      · split at h
        · exact absurd h (by simp)
        · split at h
          · obtain rfl : _ = s := Option.some_injective _ h
            simp_all
          · exact absurd h (by simp)
      · exact absurd h (by simp)

/-- Encoding an in-range `EmotionalSignature` and decoding it back
reproduces the record. -/
theorem decodeEmotionalSignature_encode {s : EmotionalSignature}
    (h₁ : -1 ≤ s.valence) (h₂ : s.valence ≤ 1)
    (h₃ : 0 ≤ s.intensity) (h₄ : s.intensity ≤ 1) :
    decodeEmotionalSignature s.encode = some s := by
  obtain ⟨id, v, i⟩ := s
  cases id <;>
    simp_all [EmotionalSignature.encode, decodeEmotionalSignature, optField, optF, jget,
      Json.asStr, Json.asNum]

/-- Claim C8 (confirmed): for every valence in [-1,1] and intensity in
[0,1], decoding an `EmotionalSignature` succeeds; every decoded signature
survives an encode-then-decode round trip unchanged; and a value outside
range in either field makes the whole decode fail. -/
theorem C8_roundtrip (v i : ℚ) (hv₁ : -1 ≤ v) (hv₂ : v ≤ 1)
    (hi₁ : 0 ≤ i) (hi₂ : i ≤ 1) :
    decodeEmotionalSignature (Json.obj [("valence", .num v), ("intensity", .num i)])
      = some ⟨none, v, i⟩ ∧
    (∀ (j : Json) (s : EmotionalSignature), decodeEmotionalSignature j = some s →
      decodeEmotionalSignature s.encode = some s) ∧
    (∀ v' : ℚ, ¬(-1 ≤ v' ∧ v' ≤ 1) →
      decodeEmotionalSignature
        (Json.obj [("valence", .num v'), ("intensity", .num i)]) = none) ∧
    (∀ i' : ℚ, ¬(0 ≤ i' ∧ i' ≤ 1) →
      decodeEmotionalSignature
        (Json.obj [("valence", .num v), ("intensity", .num i')]) = none) := by
  refine ⟨?_, ?_, ?_, ?_⟩
  · simp_all [decodeEmotionalSignature, optF, jget, Json.asStr, Json.asNum]
  · intro j s h
    obtain ⟨r₁, r₂, r₃, r₄⟩ := decodeEmotionalSignature_ranges h
    exact decodeEmotionalSignature_encode r₁ r₂ r₃ r₄
  · intro v' hv'
    simp_all [decodeEmotionalSignature, optF, jget, Json.asStr, Json.asNum]
  · intro i' hi'
    simp_all [decodeEmotionalSignature, optF, jget, Json.asStr, Json.asNum]

/-- Witness for C8 at valence 0, intensity 1/2. -/
theorem C8_witness :
    decodeEmotionalSignature
        (Json.obj [("valence", .num 0), ("intensity", .num (1 / 2))])
      = some ⟨none, 0, 1 / 2⟩ :=
  (C8_roundtrip 0 (1 / 2) (by norm_num) (by norm_num) (by norm_num) (by norm_num)).1

/-- Claim C4, counterexample: a `Fragment` with absent id — and its nested
`Context` — encodes the id as an explicit JSON null, because neither field
carries a `skip_serializing_if` attribute in the source. -/
theorem C4_counterexample :
    Json.getField
        (Fragment.encode ⟨none, .observation, "c", 0, 0, 0, ⟨none, "general", "neutral"⟩⟩)
        "id"
      = some Json.null ∧
    Json.getField (Context.encode ⟨none, "general", "neutral"⟩) "id" = some Json.null := by
  exact ⟨rfl, rfl⟩

/-- Claim C4 (corrected): every optional field of the data model that is
absent is omitted from the JSON encoding — with exactly two exceptions:
`Fragment.id` and `Context.id`, which are emitted as an explicit null when
absent. -/
theorem C4_amended :
    (∀ e : Entity, e.id = none → (e.encode).hasKey "id" = false) ∧
    (∀ e : Entity, e.gender = none → (e.encode).hasKey "gender" = false) ∧
    (∀ e : Entity, e.age = none → (e.encode).hasKey "age" = false) ∧
    (∀ e : Entity, e.background = none → (e.encode).hasKey "background" = false) ∧
    (∀ e : Entity, e.expertise = none → (e.encode).hasKey "expertise" = false) ∧
    (∀ t : Trait, t.id = none → (t.encode).hasKey "id" = false) ∧
    (∀ t : Trait, t.expression_rules = none →
      (t.encode).hasKey "expression_rules" = false) ∧
    (∀ v : Value, v.id = none → (v.encode).hasKey "id" = false) ∧
    (∀ v : Value, v.conflicts = none → (v.encode).hasKey "conflicts" = false) ∧
    (∀ c : ValueConflict, c.id = none → (c.encode).hasKey "id" = false) ∧
    (∀ v : Voice, v.id = none → (v.encode).hasKey "id" = false) ∧
    (∀ r : Relationship, r.id = none → (r.encode).hasKey "id" = false) ∧
    (∀ b : Boundary, b.id = none → (b.encode).hasKey "id" = false) ∧
    (∀ s : EmotionalSignature, s.id = none → (s.encode).hasKey "id" = false) ∧
    (∀ m : Memory, m.id = none → (m.encode).hasKey "id" = false) ∧
    (∀ m : MemoryMetadata, m.id = none → (m.encode).hasKey "id" = false) ∧
    (∀ p : Personality, p.id = none → (p.encode).hasKey "id" = false) ∧
    (∀ p : Personality, p.values = none → (p.encode).hasKey "values" = false) ∧
    (∀ p : Personality, p.voice = none → (p.encode).hasKey "voice" = false) ∧
    (∀ p : Personality, p.relationship = none →
      (p.encode).hasKey "relationship" = false) ∧
    (∀ p : Personality, p.metadata = none → (p.encode).hasKey "metadata" = false) ∧
    (∀ s : Soul, s.id = none → (s.encode).hasKey "id" = false) ∧
    (∀ f : Fragment, f.id = none → Json.getField f.encode "id" = some Json.null) ∧
    (∀ c : Context, c.id = none → Json.getField c.encode "id" = some Json.null) := by
  refine ⟨fun x h => ?_, fun x h => ?_, fun x h => ?_, fun x h => ?_, fun x h => ?_,
    fun x h => ?_, fun x h => ?_, fun x h => ?_, fun x h => ?_, fun x h => ?_,
    fun x h => ?_, fun x h => ?_, fun x h => ?_, fun x h => ?_, fun x h => ?_,
    fun x h => ?_, fun x h => ?_, fun x h => ?_, fun x h => ?_, fun x h => ?_,
    fun x h => ?_, fun x h => ?_, fun x h => ?_, fun x h => ?_⟩ <;>
    cases x <;>
    dsimp only at h <;>
    subst h <;>
    simp [Entity.encode, Trait.encode, Value.encode, ValueConflict.encode, Voice.encode,
      Relationship.encode, Boundary.encode, EmotionalSignature.encode, Memory.encode,
      MemoryMetadata.encode, Personality.encode, Soul.encode, Fragment.encode,
      Context.encode, encodeNullableId, Json.hasKey, Json.getField, jget_append, jget,
      jget_optField_ne, jget_optField_none]

/-- Witness for C4 (corrected): the default-shaped minimal Entity omits its
absent id. -/
theorem C4_witness :
    (Entity.encode ⟨none, "ai", "assistant", none, none, none, none⟩).hasKey "id"
      = false :=
  C4_amended.1 ⟨none, "ai", "assistant", none, none, none, none⟩ rfl

end Soulgraph
